import Mathlib

/-!
# Shallow embedding of the real-time notification (WebSocket) subsystem

This file embeds, in Lean, the parts of the repository's WebSocket subsystem
that the verified properties are about:

* the durable offline buffer and fan-out logic of
  `src/utils/websocket/messaging.ts` (`bufferMessage`, `sendBufferedMessages`,
  `sendToSubscribedClients`);
* the authentication handshake of `src/utils/websocket/auth.ts`
  (`isAuthMessage`, `performAuthentication`, `handleAuthMessage`);
* the heartbeat loop of `src/utils/websocket.ts` (`startPingInterval`, and the
  `pong` handler installed by `setupConnectionHandler`).

Effectful TypeScript is modelled by computable Lean functions that return,
besides their value, the ordered list of externally visible effects (Redis
mutations, socket sends, closes, probes).  Redis list primitives
(`rPush`, `lTrim`, `expire`, `del`) are given their own semantics so that the
trace of effects can be applied to a key's state.  Wall-clock time
(`Date.now()`, `new Date().toISOString()`) is passed in as an explicit
parameter.  JSON values exchanged with clients are modelled structurally:
the code only ever compares and re-serializes them, and serialization of the
structural model is injective, so structural equality stands for equality of
the JSON strings on the wire.
-/

namespace WsSpec

/-- Constant `MESSAGE_EXPIRY_MS = 5 * 60 * 1000` (messaging.ts line 7): the
delivery-eligibility window for buffered messages. -/
def MESSAGE_EXPIRY_MS : Nat := 5 * 60 * 1000

/-- Constant `BUFFER_MAX_LENGTH = 50` (messaging.ts line 8): keep the last 50 buffered
messages per key. -/
def BUFFER_MAX_LENGTH : Nat := 50

/-- Constant `BUFFER_EXPIRY_SECONDS = 86400` (messaging.ts line 9): idle expiry of a
buffer key, one day. -/
def BUFFER_EXPIRY_SECONDS : Nat := 86400

/-- The heartbeat period of `startPingInterval` (websocket.ts line 216):
`setInterval(..., 30000)`. -/
def PING_INTERVAL_MS : Nat := 30000

/-- A `WebSocketMessage` as published to clients: a `type` tag, an optional
ISO-8601 `timestamp` string, and an opaque payload.  `timestamp = none`
models an absent field; `some ""` models an empty string (both are JS-falsy
for the `data.timestamp || ...` default in `bufferMessage`). -/
structure WSMessage where
  type : String
  timestamp : Option String
  payload : String
deriving DecidableEq

/-- JS truthiness of an optional string field: `undefined`/`null`/`""` are
falsy, every other string is truthy. -/
def jsTruthy : Option String → Bool
  | none => false
  | some s => !s.isEmpty

/-- JS disjunction `a || b` on an optional string field (used for
`data.timestamp || new Date().toISOString()` in `bufferMessage`). -/
def jsOrElse (a : Option String) (b : String) : String :=
  match a with
  | some s => if s.isEmpty then b else s
  | none => b

/-- The `ws` readyState constants (`WebSocket.CONNECTING/OPEN/CLOSING/CLOSED`). -/
inductive ReadyState where
  | CONNECTING
  | OPEN
  | CLOSING
  | CLOSED
deriving DecidableEq

/-- One element of a Redis buffer list, as written by `bufferMessage`
(messaging.ts line 79): `JSON.stringify({ data: messageData, timestamp: Date.now() })`.
`bufferMessage` is the only writer of these keys, so every stored element is
of this well-formed shape; `timestamp` is the enqueue time in ms. -/
structure StoredEntry where
  data : WSMessage
  timestamp : Nat
deriving DecidableEq

/-- Externally visible effects of the messaging module, in program order.
`send i m` records a successful `ws.send(JSON.stringify(m))` on client
number `i` of the relevant client collection (index `0` when the target is a
single replay connection). -/
inductive Effect where
  | rPush (key : String) (entry : StoredEntry)
  | lTrim (key : String) (start stop : Int)
  | expireKey (key : String) (seconds : Nat)
  | delKey (key : String)
  | send (client : Nat) (message : WSMessage)
deriving DecidableEq

/-- The Redis key for a user/topic buffer: `ws:buffer:${userId}:${topic}`. -/
def bufferKey (userId topic : String) : String :=
  "ws:buffer:" ++ userId ++ ":" ++ topic

/-- Function `bufferMessage(userId, topic, data)` (messaging.ts lines 72-90): defaults
the message's `timestamp` to the current ISO time when falsy, then appends
`{data: messageData, timestamp: Date.now()}` to the key, trims the list to
its last `BUFFER_MAX_LENGTH` elements, and resets the key's expiry to
`BUFFER_EXPIRY_SECONDS`.  The trailing `lLen` call is a pure read used only
for logging and produces no effect.  `now` is `Date.now()` in ms and
`nowIso` is `new Date().toISOString()`. -/
def bufferMessage (userId topic : String) (data : WSMessage) (now : Nat)
    (nowIso : String) : List Effect :=
  let messageData : WSMessage :=
    { data with timestamp := some (jsOrElse data.timestamp nowIso) }
  let key := bufferKey userId topic
  let entry : StoredEntry := ⟨messageData, now⟩
  [Effect.rPush key entry,
   Effect.lTrim key (-(BUFFER_MAX_LENGTH : Int)) (-1),
   Effect.expireKey key BUFFER_EXPIRY_SECONDS]

/-- Redis `LTRIM key start stop` semantics on a list: negative indices count
from the end; the elements with normalized index in `[start, stop]` are
kept. -/
def redisLTrim (l : List StoredEntry) (start stop : Int) : List StoredEntry :=
  let len : Int := l.length
  let s : Int := if start < 0 then max 0 (len + start) else start
  let e : Int := if stop < 0 then len + stop else stop
  if e < s then [] else (l.take (e.toNat + 1)).drop s.toNat

/-- The durable state of one Redis key: the list of stored entries and the
time-to-live last set by `expire` (none when the key is absent or
persistent). -/
structure KeyState where
  entries : List StoredEntry
  ttl : Option Nat
deriving DecidableEq

/-- Interpret one effect on the state of key `key`; effects addressing other
keys, and socket sends, leave it unchanged. -/
def applyEffect (key : String) (st : KeyState) : Effect → KeyState
  | Effect.rPush k e => if k = key then ⟨st.entries ++ [e], st.ttl⟩ else st
  | Effect.lTrim k a b => if k = key then ⟨redisLTrim st.entries a b, st.ttl⟩ else st
  | Effect.expireKey k s => if k = key then ⟨st.entries, some s⟩ else st
  | Effect.delKey k => if k = key then ⟨[], none⟩ else st
  | Effect.send _ _ => st

/-- Interpret a trace of effects, in order, on the state of key `key`. -/
def applyEffects (key : String) (st : KeyState) (es : List Effect) : KeyState :=
  es.foldl (applyEffect key) st

/-- The messages sent on sockets in a trace, in order. -/
def sentMessages (es : List Effect) : List WSMessage :=
  es.filterMap fun e =>
    match e with
    | Effect.send _ m => some m
    | _ => none

/-- Whether an effect is a socket send. -/
def isSend : Effect → Bool
  | Effect.send _ _ => true
  | _ => false

/-- Whether an effect is a Redis list append. -/
def isRPush : Effect → Bool
  | Effect.rPush _ _ => true
  | _ => false

/-- Whether an effect is a Redis key delete. -/
def isDel : Effect → Bool
  | Effect.delKey _ => true
  | _ => false

/-- A tracked client connection (`WebSocketClient` in websocket/state:
a `ws.WebSocket` extended with `userId`, `isAuthenticating`,
`subscribedTopics`, `isAlive`).  `sendFails` models `client.send` throwing
on this particular connection. -/
structure WebSocketClient where
  userId : Option String
  isAuthenticating : Bool
  subscribedTopics : List String
  readyState : ReadyState
  sendFails : Bool
  isAlive : Bool
deriving DecidableEq

/-- The per-client test of the fan-out loop of `sendToSubscribedClients`
(messaging.ts lines 138-162): the client contributes a successful send
exactly when it is bound to this `userId` and not mid-authentication
(otherwise `notAuthCount++`), its transport is `OPEN` (otherwise
`closedCount++`), it has `topic` in its subscription set (otherwise
`notSubscribedCount++`), and `client.send` does not throw (otherwise the
error is caught and `errorCount++`). -/
def sendSucceeds (userId topic : String) (c : WebSocketClient) : Bool :=
  if !(jsTruthy c.userId) || c.userId != some userId || c.isAuthenticating then
    false
  else if c.readyState == ReadyState.OPEN then
    if c.subscribedTopics.contains topic then
      !c.sendFails
    else false
  else false

/-- The effects contributed by one client of the fan-out loop: one successful
send of the serialized payload, or nothing (failed sends are caught and only
counted). -/
def fanoutClientEffect (userId topic : String) (data : WSMessage) (i : Nat)
    (c : WebSocketClient) : List Effect :=
  if sendSucceeds userId topic c then [Effect.send i data] else []

/-- Function `sendToSubscribedClients(userId, topic, data)` (messaging.ts lines
121-171), the implementation of `publish`.  `userClients` is the result of
`getClientsByUserId().get(userId)`: `none` when the registry map has no
entry for the identity.  When the lookup is empty the payload is buffered at
once; otherwise the payload is serialized once and each client of the set is
attempted independently; if no send succeeded (`sentCount === 0`) while the
set was non-empty, the payload is buffered after the loop. -/
def sendToSubscribedClients (userId topic : String) (data : WSMessage)
    (userClients : Option (List WebSocketClient)) (now : Nat)
    (nowIso : String) : List Effect :=
  match userClients with
  | none => bufferMessage userId topic data now nowIso
  | some clients =>
    if clients.length = 0 then
      bufferMessage userId topic data now nowIso
    else
      let sendEffects :=
        (clients.enum.map fun ic => fanoutClientEffect userId topic data ic.1 ic.2).flatten
      let sentCount := clients.countP fun c => sendSucceeds userId topic c
      if sentCount = 0 then
        sendEffects ++ bufferMessage userId topic data now nowIso
      else
        sendEffects

/-- A buffered entry is delivery-eligible when its enqueue timestamp is
within the eligibility window: `(now - msg.timestamp) < MESSAGE_EXPIRY_MS`
(messaging.ts line 35), computed over the integers as in JS. -/
def eligible (now : Nat) (e : StoredEntry) : Bool :=
  (now : Int) - (e.timestamp : Int) < (MESSAGE_EXPIRY_MS : Int)

/-- The replay send loop of `sendBufferedMessages` (messaging.ts lines
47-58): iterate the non-expired messages in enqueue order; at each step the
connection's current `readyState` (which other callbacks may have changed,
hence a function of the step index) is read: if `OPEN` the message is sent,
if `CLOSED` or `CLOSING` the message is skipped and the loop breaks,
otherwise the message is skipped and the loop continues. -/
def sendLoop (states : Nat → ReadyState) : Nat → List WSMessage → List Effect
  | _, [] => []
  | i, m :: ms =>
    match states i with
    | ReadyState.OPEN => Effect.send 0 m :: sendLoop states (i + 1) ms
    | ReadyState.CLOSED => []
    | ReadyState.CLOSING => []
    | ReadyState.CONNECTING => sendLoop states (i + 1) ms

/-- Function `sendBufferedMessages(ws, topic)` (messaging.ts lines 13-70): a no-op for
a connection with no bound identity; otherwise reads the whole list at the
buffer key (a pure read), returns without any effect when it is empty, else
partitions the entries into delivery-eligible messages (kept in enqueue
order) and expired ones, runs the send loop over the eligible messages, and
finally deletes the key when at least one entry was eligible or expired.
`userId` is `ws.userId`, `entries` the stored list, `now` is `Date.now()`,
and `states i` the `ws.readyState` observed at step `i` of the send loop. -/
def sendBufferedMessages (userId : Option String) (topic : String)
    (entries : List StoredEntry) (now : Nat) (states : Nat → ReadyState) :
    List Effect :=
  match userId with
  | none => []
  | some uid =>
    if entries.length = 0 then []
    else
      let key := bufferKey uid topic
      let messagesToSend := (entries.filter (eligible now)).map (·.data)
      let expiredCount := (entries.filter fun e => !(eligible now e)).length
      let sendEffects := sendLoop states 0 messagesToSend
      if messagesToSend.length > 0 ∨ expiredCount > 0 then
        sendEffects ++ [Effect.delKey key]
      else
        sendEffects

/-! ## Authentication handshake (`src/utils/websocket/auth.ts`) -/

/-- The result of the external verifier `verifyAppleToken`
(`Result<{userId: string}, Error>` in apple-auth): on success it carries the
verified subject (`verified.sub`) as `userId`, un-namespaced; on failure an
error message. -/
inductive VerifyResult where
  | ok (userId : String)
  | err (message : String)
deriving DecidableEq

/-- Modelled from the spec: the token-keyed verification cache
(`getCachedAppleAuth` / `cacheAppleAuthResult` of `utils/apple-auth-cache`,
whose source is not present under src/ — only its caller
`performAuthentication` is).  Spec section 4.2: a "short-lived cache
(token → verification result)"; "cache entries mirror both success and
failure outcomes".  Modelled as a finite map from token to the stored
verification result, considered within its validity window: a get returns
exactly the result that was stored for the token, or nothing. -/
def AuthCache : Type := List (String × VerifyResult)

/-- Modelled from the spec: cache lookup within the validity window returns
the stored verification result for the token, if any. -/
def getCachedAppleAuth (cache : AuthCache) (token : String) :
    Option VerifyResult :=
  (cache.find? fun p => p.1 == token).map (·.2)

/-- Modelled from the spec: caching a verification result makes subsequent
lookups of the token return it; other tokens are unaffected. -/
def cacheAppleAuthResult (cache : AuthCache) (token : String)
    (result : VerifyResult) : AuthCache :=
  (token, result) :: cache

/-- Externally visible effects of the authentication handshake, in program
order. -/
inductive AuthEffect where
  | clearAuthTimeout
  | callVerifier (token : String)
  | cacheWrite (token : String) (result : VerifyResult)
  | registerClient (userId : String)
  | sendAuthSuccess (userId : String)
  | sendConnected (connectionId : String)
  | closeConn (code : Nat) (reason : String)
deriving DecidableEq

/-- The result of `performAuthentication`, with the updated cache and the
effect trace. -/
structure AuthOutcome where
  result : VerifyResult
  cache : AuthCache
  effects : List AuthEffect

/-- Function `performAuthentication(token, clientIp)` (auth.ts lines 31-48): returns
the cached result when the cache holds one for this token; otherwise calls
the external verifier, caches the raw verification result — success or
failure — and only then, on success, returns the subject prefixed with
`apple:`; on failure, the error.  `verifier` is the external
`verifyAppleToken` capability. -/
def performAuthentication (cache : AuthCache)
    (verifier : String → VerifyResult) (token : String) : AuthOutcome :=
  match getCachedAppleAuth cache token with
  | some cachedResult => ⟨cachedResult, cache, []⟩
  | none =>
    let verificationResult := verifier token
    let cache2 := cacheAppleAuthResult cache token verificationResult
    let returned :=
      match verificationResult with
      | VerifyResult.ok sub => VerifyResult.ok ("apple:" ++ sub)
      | VerifyResult.err e => VerifyResult.err e
    ⟨returned, cache2,
     [AuthEffect.callVerifier token,
      AuthEffect.cacheWrite token verificationResult]⟩

/-- An incoming client message as seen by `isAuthMessage`, abstracting the
dynamically-typed JSON value by the observations the guard makes of it:
whether it is a non-null object, whether its `type` property equals
`"auth"`, and the value of its `token` property when that is a JS string
(`none` when absent or of another type). -/
structure IncomingData where
  isObject : Bool
  typeIsAuth : Bool
  token : Option String
deriving DecidableEq

/-- Guard `isAuthMessage(data)` (auth.ts lines 20-29): a non-null object whose
`type` is `"auth"` and whose `token` is a string of positive length. -/
def isAuthMessage (d : IncomingData) : Bool :=
  d.isObject && d.typeIsAuth &&
    (match d.token with
     | some s => decide (0 < s.length)
     | none => false)

/-- The connection fields mutated by the handshake (`ws.userId`,
`ws.isAuthenticating`). -/
structure AuthClient where
  userId : Option String
  isAuthenticating : Bool
deriving DecidableEq

/-- The result of `handleAuthMessage`: the boolean return value, the updated
connection fields, the updated cache, and the effect trace. -/
structure HandshakeOutcome where
  succeeded : Bool
  client : AuthClient
  cache : AuthCache
  effects : List AuthEffect

/-- Function `handleAuthMessage(ws, data, authTimeout, clientIp)` (auth.ts lines
50-98): clears the pending auth timeout; closes with code 4002 when the
message is not a structurally valid auth envelope; otherwise authenticates
the token: on success binds `ws.userId` to the returned identity, clears
`isAuthenticating`, registers the client under that identity
(`addClientToUser`), sends `auth_success {userId}` then
`connected {connectionId}` where the connection id is the identity, a dash,
and a server-generated random suffix (`Math.random().toString(36).substring(2, 9)`,
passed in as `rand`); on failure closes with code 4001.  The two non-auth
branches are reached exactly when `isAuthMessage` fails, which includes
every message whose `token` is not a string. -/
def handleAuthMessage (ws : AuthClient) (data : IncomingData)
    (cache : AuthCache) (verifier : String → VerifyResult) (rand : String) :
    HandshakeOutcome :=
  match data.token with
  | some token =>
    if isAuthMessage data then
      let out := performAuthentication cache verifier token
      match out.result with
      | VerifyResult.ok uid =>
        ⟨true, ⟨some uid, false⟩, out.cache,
         AuthEffect.clearAuthTimeout :: out.effects ++
           [AuthEffect.registerClient uid,
            AuthEffect.sendAuthSuccess uid,
            AuthEffect.sendConnected (uid ++ "-" ++ rand)]⟩
      | VerifyResult.err _ =>
        ⟨false, ws, out.cache,
         AuthEffect.clearAuthTimeout :: out.effects ++
           [AuthEffect.closeConn 4001 "Authentication failed"]⟩
    else
      ⟨false, ws, cache,
       [AuthEffect.clearAuthTimeout,
        AuthEffect.closeConn 4002 "Invalid or unexpected authentication message"]⟩
  | none =>
    ⟨false, ws, cache,
     [AuthEffect.clearAuthTimeout,
      AuthEffect.closeConn 4002 "Invalid or unexpected authentication message"]⟩

/-! ## Heartbeat loop (`src/utils/websocket.ts`, `startPingInterval`) -/

/-- The per-connection state the heartbeat reads and writes: the liveness
flag, and whether `client.ping()` would throw on this connection. -/
structure PingClient where
  isAlive : Bool
  pingFails : Bool
deriving DecidableEq

/-- Effects of one heartbeat step on one connection. -/
inductive PingEffect where
  | terminate
  | ping
deriving DecidableEq

/-- The body of the heartbeat tick for one tracked connection (websocket.ts
lines 196-215): a connection whose liveness flag is cleared is terminated;
otherwise the flag is cleared and a probe is sent — a probe that throws
terminates the connection.  Returns the surviving connection state, if any,
with the effects. -/
def pingTickClient (c : PingClient) : Option PingClient × List PingEffect :=
  if !c.isAlive then
    (none, [PingEffect.terminate])
  else
    if c.pingFails then
      (none, [PingEffect.terminate])
    else
      (some { c with isAlive := false }, [PingEffect.ping])

/-- The `pong` handler installed on every connection (websocket.ts lines
69-71): a transport-level pong sets the liveness flag. -/
def onPong (c : PingClient) : PingClient :=
  { c with isAlive := true }

/-- A sample message used to instantiate the universally quantified theorems
at a concrete input. -/
def sampleMsg : WSMessage :=
  ⟨"status", some "2025-01-01T00:00:00.000Z", "completed"⟩

/-- A sample buffer content: one fresh entry and one expired one (relative
to a replay at time 600000 ms). -/
def sampleEntries : List StoredEntry :=
  [⟨sampleMsg, 599999⟩, ⟨{ sampleMsg with type := "old" }, 1000⟩]

/-- A readyState history that stays `OPEN` at every step of a replay. -/
def alwaysOpen : Nat → ReadyState := fun _ => ReadyState.OPEN

/-! ## Helper lemmas -/

/-- Redis `LTRIM key -n -1` keeps exactly the last `n` elements. -/
theorem redisLTrim_lastN (l : List StoredEntry) (n : Nat) (hn : 0 < n) :
    redisLTrim l (-(n : Int)) (-1) = l.drop (l.length - n) := by
  unfold redisLTrim
  have h1 : (-(n : Int)) < 0 := by omega
  have h2 : (-1 : Int) < 0 := by omega
  simp only [if_pos h1, if_pos h2]
  rcases l with _ | ⟨a, l⟩
  · simp
  · have hlen : (0 : Int) < (a :: l).length := by
      simp only [List.length_cons]; omega
    have hcond : ¬ ((((a :: l).length : Int) + -1) < max 0 (((a :: l).length : Int) + -(n : Int))) := by
      omega
    rw [if_neg hcond]
    have htake : ((((a :: l).length : Int) + -1).toNat + 1) = (a :: l).length := by
      omega
    have hdrop : (max 0 (((a :: l).length : Int) + -(n : Int))).toNat = (a :: l).length - n := by
      omega
    rw [htake, hdrop, List.take_length]

/-! ## Claim theorems -/

/-- C1: for an identity with no entry in the client registry map,
`publish(identity, topic, payload)` — `sendToSubscribedClients` — performs
exactly one durable-store append, under the key
`ws:buffer:<identity>:<topic>`, and sends nothing on any socket. -/
theorem publish_no_clients_buffers_once (identity topic : String)
    (data : WSMessage) (now : Nat) (nowIso : String) :
    (sendToSubscribedClients identity topic data none now nowIso).countP isRPush = 1 ∧
    (∀ k e, Effect.rPush k e ∈ sendToSubscribedClients identity topic data none now nowIso →
      k = bufferKey identity topic) ∧
    (∀ e ∈ sendToSubscribedClients identity topic data none now nowIso, isSend e = false) := by
  refine ⟨?_, ?_, ?_⟩
  · simp [sendToSubscribedClients, bufferMessage, isRPush, List.countP_cons]
  · intro k e h
    simp only [sendToSubscribedClients, bufferMessage, List.mem_cons,
      List.not_mem_nil, or_false] at h
    rcases h with h | h | h <;> simp_all
  · intro e h
    simp only [sendToSubscribedClients, bufferMessage, List.mem_cons,
      List.not_mem_nil, or_false] at h
    rcases h with h | h | h <;> simp [h, isSend]

/-- Concrete instantiation of the C1 theorem. -/
theorem publish_no_clients_buffers_once_witness :
    (sendToSubscribedClients "apple:u1" "conversation:42" sampleMsg none 1000 "t0").countP isRPush = 1 ∧
    (∀ k e, Effect.rPush k e ∈ sendToSubscribedClients "apple:u1" "conversation:42" sampleMsg none 1000 "t0" →
      k = bufferKey "apple:u1" "conversation:42") ∧
    (∀ e ∈ sendToSubscribedClients "apple:u1" "conversation:42" sampleMsg none 1000 "t0", isSend e = false) :=
  publish_no_clients_buffers_once "apple:u1" "conversation:42" sampleMsg 1000 "t0"

/-- C6: after every `bufferMessage(identity, topic, data)`, whatever the
prior state of the key, the list at `ws:buffer:<identity>:<topic>` holds at
most the last `BUFFER_MAX_LENGTH = 50` entries — it equals the previous list
with the new entry appended, minus however many oldest entries exceed 50 —
and the key's expiry is reset to `BUFFER_EXPIRY_SECONDS = 86400`. -/
theorem bufferMessage_bounded_and_expiring (userId topic : String)
    (data : WSMessage) (now : Nat) (nowIso : String) (st : KeyState) :
    let entry : StoredEntry :=
      ⟨{ data with timestamp := some (jsOrElse data.timestamp nowIso) }, now⟩
    let st2 := applyEffects (bufferKey userId topic) st
      (bufferMessage userId topic data now nowIso)
    st2.ttl = some BUFFER_EXPIRY_SECONDS ∧
    st2.entries.length ≤ BUFFER_MAX_LENGTH ∧
    st2.entries =
      (st.entries ++ [entry]).drop ((st.entries.length + 1) - BUFFER_MAX_LENGTH) ∧
    BUFFER_MAX_LENGTH = 50 ∧ BUFFER_EXPIRY_SECONDS = 86400 := by
  intro entry st2
  have hmax : (0 : Nat) < BUFFER_MAX_LENGTH := by decide
  have hst2 : st2 = ⟨redisLTrim (st.entries ++ [entry]) (-(BUFFER_MAX_LENGTH : Int)) (-1),
      some BUFFER_EXPIRY_SECONDS⟩ := by
    simp [st2, applyEffects, bufferMessage, applyEffect, entry]
  rw [hst2]
  rw [redisLTrim_lastN _ _ hmax]
  refine ⟨rfl, ?_, ?_, rfl, rfl⟩
  · simp only [List.length_drop, List.length_append, List.length_singleton]
    omega
  · simp

/-- Concrete instantiation of the C6 theorem. -/
theorem bufferMessage_bounded_and_expiring_witness :
    let entry : StoredEntry :=
      ⟨{ sampleMsg with timestamp := some (jsOrElse sampleMsg.timestamp "t0") }, 1000⟩
    let st2 := applyEffects (bufferKey "apple:u1" "conversation:42") ⟨[], none⟩
      (bufferMessage "apple:u1" "conversation:42" sampleMsg 1000 "t0")
    st2.ttl = some BUFFER_EXPIRY_SECONDS ∧
    st2.entries.length ≤ BUFFER_MAX_LENGTH ∧
    st2.entries = (([] : List StoredEntry) ++ [entry]).drop ((([] : List StoredEntry).length + 1) - BUFFER_MAX_LENGTH) ∧
    BUFFER_MAX_LENGTH = 50 ∧ BUFFER_EXPIRY_SECONDS = 86400 :=
  bufferMessage_bounded_and_expiring "apple:u1" "conversation:42" sampleMsg 1000 "t0" ⟨[], none⟩

/-- C10: replaying the buffer for a connection with no bound identity, or
when the stored list for the key is empty, sends nothing and performs no
durable-store mutation — in particular no delete — so the replay is a
complete no-op on any key's state. -/
theorem replay_empty_is_noop (userId : Option String) (topic : String)
    (entries : List StoredEntry) (now : Nat) (states : Nat → ReadyState)
    (h : userId = none ∨ entries = []) :
    sendBufferedMessages userId topic entries now states = [] ∧
    ∀ key st, applyEffects key st (sendBufferedMessages userId topic entries now states) = st := by
  have hnil : sendBufferedMessages userId topic entries now states = [] := by
    rcases h with h | h
    · subst h; rfl
    · subst h
      cases userId <;> simp [sendBufferedMessages]
  refine ⟨hnil, ?_⟩
  intro key st
  rw [hnil]
  rfl

/-- Concrete instantiation of the C10 theorem: an absent buffer for an
authenticated connection is replayed without any effect. -/
theorem replay_empty_is_noop_witness :
    sendBufferedMessages (some "apple:u1") "conversation:42" [] 1000 (fun _ => ReadyState.OPEN) = [] ∧
    ∀ key st, applyEffects key st
      (sendBufferedMessages (some "apple:u1") "conversation:42" [] 1000 (fun _ => ReadyState.OPEN)) = st :=
  replay_empty_is_noop (some "apple:u1") "conversation:42" [] 1000 (fun _ => ReadyState.OPEN)
    (Or.inr rfl)

/-- C5: while a connection awaits its credential, any message that is not a
structurally valid auth envelope (`isAuthMessage` fails: not a non-null
object of `type` `"auth"` with a non-empty string `token`) makes
`handleAuthMessage` close the connection in the same handling cycle with
status code 4002 — distinct from the authentication-failure code 4001 — and
report failure; the message is never silently ignored. -/
theorem unauth_invalid_message_closes_4002 (ws : AuthClient)
    (data : IncomingData) (cache : AuthCache)
    (verifier : String → VerifyResult) (rand : String)
    (h : isAuthMessage data = false) :
    (handleAuthMessage ws data cache verifier rand).succeeded = false ∧
    (handleAuthMessage ws data cache verifier rand).effects =
      [AuthEffect.clearAuthTimeout,
       AuthEffect.closeConn 4002 "Invalid or unexpected authentication message"] ∧
    (4002 : Nat) ≠ 4001 := by
  cases hd : data.token with
  | none => simp [handleAuthMessage, hd]
  | some t => simp [handleAuthMessage, hd, h]

/-- Concrete instantiation of the C5 theorem: a well-formed `subscribe`-style
object sent during the credential phase is closed with code 4002. -/
theorem unauth_invalid_message_closes_4002_witness :
    (handleAuthMessage ⟨none, true⟩ ⟨true, false, none⟩ [] (fun _ => VerifyResult.ok "u1") "r").succeeded = false ∧
    (handleAuthMessage ⟨none, true⟩ ⟨true, false, none⟩ [] (fun _ => VerifyResult.ok "u1") "r").effects =
      [AuthEffect.clearAuthTimeout,
       AuthEffect.closeConn 4002 "Invalid or unexpected authentication message"] ∧
    (4002 : Nat) ≠ 4001 :=
  unauth_invalid_message_closes_4002 ⟨none, true⟩ ⟨true, false, none⟩ []
    (fun _ => VerifyResult.ok "u1") "r" rfl

/-- C7: on a cache miss, `performAuthentication` writes the external
verifier's result to the cache — success or failure alike — before any
further handling, and a second attempt with the same token resolves from the
cache: it produces no effects at all, in particular it does not invoke the
external verifier, and returns exactly the stored result.  The trace
conjunct for `handleAuthMessage` shows the cache write happens before the
handler acts on the outcome. -/
theorem auth_cache_miss_writes_then_hits (cache : AuthCache)
    (verifier : String → VerifyResult) (token : String)
    (h : getCachedAppleAuth cache token = none) :
    (performAuthentication cache verifier token).effects =
      [AuthEffect.callVerifier token,
       AuthEffect.cacheWrite token (verifier token)] ∧
    getCachedAppleAuth (performAuthentication cache verifier token).cache token =
      some (verifier token) ∧
    (performAuthentication (performAuthentication cache verifier token).cache verifier token).effects = [] ∧
    (performAuthentication (performAuthentication cache verifier token).cache verifier token).result =
      verifier token ∧
    (∀ ws d rand, d.token = some token → isAuthMessage d = true →
      ∃ rest, (handleAuthMessage ws d cache verifier rand).effects =
        AuthEffect.clearAuthTimeout :: AuthEffect.callVerifier token ::
          AuthEffect.cacheWrite token (verifier token) :: rest) := by
  have hout : performAuthentication cache verifier token =
      ⟨(match verifier token with
        | VerifyResult.ok sub => VerifyResult.ok ("apple:" ++ sub)
        | VerifyResult.err e => VerifyResult.err e),
       cacheAppleAuthResult cache token (verifier token),
       [AuthEffect.callVerifier token,
        AuthEffect.cacheWrite token (verifier token)]⟩ := by
    simp [performAuthentication, h]
  have hhit : getCachedAppleAuth (cacheAppleAuthResult cache token (verifier token)) token =
      some (verifier token) := by
    simp [getCachedAppleAuth, cacheAppleAuthResult, List.find?]
  refine ⟨by rw [hout], by rw [hout]; exact hhit, ?_, ?_, ?_⟩
  · rw [hout]
    simp [performAuthentication, hhit]
  · rw [hout]
    simp [performAuthentication, hhit]
  · intro ws d rand hdtok hdauth
    cases hres : verifier token with
    | ok sub =>
      refine ⟨[AuthEffect.registerClient ("apple:" ++ sub),
        AuthEffect.sendAuthSuccess ("apple:" ++ sub),
        AuthEffect.sendConnected ("apple:" ++ sub ++ "-" ++ rand)], ?_⟩
      simp [handleAuthMessage, hdtok, hdauth, hout, hres]
    | err e =>
      refine ⟨[AuthEffect.closeConn 4001 "Authentication failed"], ?_⟩
      simp [handleAuthMessage, hdtok, hdauth, hout, hres]

/-- Concrete instantiation of the C7 theorem, on an empty cache with a
rejecting verifier: the failure outcome is cached and the second attempt is
served from the cache without a verifier call. -/
theorem auth_cache_miss_writes_then_hits_witness :
    (performAuthentication [] (fun _ => VerifyResult.err "bad") "tok-A").effects =
      [AuthEffect.callVerifier "tok-A",
       AuthEffect.cacheWrite "tok-A" (VerifyResult.err "bad")] ∧
    getCachedAppleAuth (performAuthentication [] (fun _ => VerifyResult.err "bad") "tok-A").cache "tok-A" =
      some (VerifyResult.err "bad") ∧
    (performAuthentication (performAuthentication [] (fun _ => VerifyResult.err "bad") "tok-A").cache
      (fun _ => VerifyResult.err "bad") "tok-A").effects = [] ∧
    (performAuthentication (performAuthentication [] (fun _ => VerifyResult.err "bad") "tok-A").cache
      (fun _ => VerifyResult.err "bad") "tok-A").result = VerifyResult.err "bad" ∧
    (∀ ws d rand, d.token = some "tok-A" → isAuthMessage d = true →
      ∃ rest, (handleAuthMessage ws d [] (fun _ => VerifyResult.err "bad") rand).effects =
        AuthEffect.clearAuthTimeout :: AuthEffect.callVerifier "tok-A" ::
          AuthEffect.cacheWrite "tok-A" (VerifyResult.err "bad") :: rest) :=
  auth_cache_miss_writes_then_hits [] (fun _ => VerifyResult.err "bad") "tok-A" rfl

/-- C3 (failing input): with a verifier accepting `"tok-A"` as subject
`"u1"` and an initially empty cache, the first `handleAuthMessage` binds the
namespaced identity `"apple:u1"` and sends `auth_success` then `connected`
in order — but it caches the raw verifier result, so a second
`handleAuthMessage` presenting the same token resolves from the cache and
binds the un-namespaced identity `"u1"`, contradicting the claim for the
cached path. -/
theorem auth_cache_hit_binds_unprefixed_identity :
    (handleAuthMessage ⟨none, true⟩ ⟨true, true, some "tok-A"⟩ []
      (fun _ => VerifyResult.ok "u1") "r1").client.userId = some "apple:u1" ∧
    (handleAuthMessage ⟨none, true⟩ ⟨true, true, some "tok-A"⟩ []
      (fun _ => VerifyResult.ok "u1") "r1").effects =
      [AuthEffect.clearAuthTimeout, AuthEffect.callVerifier "tok-A",
       AuthEffect.cacheWrite "tok-A" (VerifyResult.ok "u1"),
       AuthEffect.registerClient "apple:u1",
       AuthEffect.sendAuthSuccess "apple:u1",
       AuthEffect.sendConnected "apple:u1-r1"] ∧
    (handleAuthMessage ⟨none, true⟩ ⟨true, true, some "tok-A"⟩
      (handleAuthMessage ⟨none, true⟩ ⟨true, true, some "tok-A"⟩ []
        (fun _ => VerifyResult.ok "u1") "r1").cache
      (fun _ => VerifyResult.ok "u1") "r2").succeeded = true ∧
    (handleAuthMessage ⟨none, true⟩ ⟨true, true, some "tok-A"⟩
      (handleAuthMessage ⟨none, true⟩ ⟨true, true, some "tok-A"⟩ []
        (fun _ => VerifyResult.ok "u1") "r1").cache
      (fun _ => VerifyResult.ok "u1") "r2").client.userId = some "u1" ∧
    some "u1" ≠ some "apple:u1" := by
  refine ⟨rfl, rfl, rfl, rfl, by decide⟩

/-- C8: the heartbeat runs every `PING_INTERVAL_MS = 30000` ms; each tick
terminates every tracked connection whose liveness flag is still cleared,
and for every other connection clears the flag and sends a probe (a probe
that throws terminates the connection); a pong sets the flag; consequently
any connection that survives a tick is terminated at the next tick unless a
pong arrived in between. -/
theorem heartbeat_probe_discipline :
    PING_INTERVAL_MS = 30000 ∧
    (∀ c : PingClient, c.isAlive = false →
      pingTickClient c = (none, [PingEffect.terminate])) ∧
    (∀ c : PingClient, c.isAlive = true → c.pingFails = false →
      pingTickClient c = (some { c with isAlive := false }, [PingEffect.ping])) ∧
    (∀ c : PingClient, (onPong c).isAlive = true) ∧
    (∀ c c2 : PingClient, (pingTickClient c).1 = some c2 →
      pingTickClient c2 = (none, [PingEffect.terminate])) := by
  refine ⟨rfl, ?_, ?_, ?_, ?_⟩
  · intro c h
    simp [pingTickClient, h]
  · intro c h1 h2
    simp [pingTickClient, h1, h2]
  · intro c
    rfl
  · intro c c2 h
    rcases c with ⟨alive, pf⟩
    cases alive
    · simp [pingTickClient] at h
    · cases pf
      · simp [pingTickClient] at h
        subst h
        rfl
      · simp [pingTickClient] at h

/-- Concrete instantiation of the C8 theorem: a connection that survived the
last tick (flag cleared, probe sent) and received no pong is terminated by
the next tick. -/
theorem heartbeat_probe_discipline_witness :
    pingTickClient ⟨false, false⟩ = (none, [PingEffect.terminate]) :=
  heartbeat_probe_discipline.2.2.2.2 ⟨true, false⟩ ⟨false, false⟩ rfl

/-- Every effect emitted by the replay send loop is a socket send. -/
theorem sendLoop_all_sends (states : Nat → ReadyState) :
    ∀ (i : Nat) (ms : List WSMessage), ∀ e ∈ sendLoop states i ms, isSend e = true := by
  intro i ms
  induction ms generalizing i with
  | nil => intro e he; simp [sendLoop] at he
  | cons m ms ih =>
    intro e he
    cases hs : states i <;> simp [sendLoop, hs] at he
    · exact ih (i + 1) e he
    · rcases he with he | he
      · rw [he]; rfl
      · exact ih (i + 1) e he

/-- The messages the replay send loop delivers form a sublist — same
relative order, possibly with omissions — of its input. -/
theorem sentMessages_sendLoop_sublist (states : Nat → ReadyState) :
    ∀ (i : Nat) (ms : List WSMessage),
      (sentMessages (sendLoop states i ms)).Sublist ms := by
  intro i ms
  induction ms generalizing i with
  | nil => simp [sendLoop, sentMessages]
  | cons m ms ih =>
    cases hs : states i <;> simp [sendLoop, hs, sentMessages, List.filterMap_cons]
    · exact (ih (i + 1)).cons m
    · exact ih (i + 1)

/-- When the connection's readyState is `OPEN` at every step, the replay
send loop delivers its whole input, in order. -/
theorem sentMessages_sendLoop_all_open (states : Nat → ReadyState)
    (hopen : ∀ i, states i = ReadyState.OPEN) :
    ∀ (i : Nat) (ms : List WSMessage),
      sentMessages (sendLoop states i ms) = ms := by
  intro i ms
  induction ms generalizing i with
  | nil => simp [sendLoop, sentMessages]
  | cons m ms ih =>
    simp [sendLoop, hopen i, sentMessages, List.filterMap_cons]
    have := ih (i + 1)
    simpa [sentMessages] using this

/-- C2: replaying the buffer (`sendBufferedMessages`) for an authenticated
connection: expired entries (older than the `MESSAGE_EXPIRY_MS` window) are
never delivered, what is delivered is exactly a chunk of the
delivery-eligible entries' payloads in enqueue order — all of them when the
connection stays open through the pass — and the key is deleted exactly when
at least one stored entry was processed; a pass over an empty list leaves
the key untouched. -/
theorem replay_window_order_and_delete (uid topic : String)
    (entries : List StoredEntry) (now : Nat) (states : Nat → ReadyState) :
    (sentMessages (sendBufferedMessages (some uid) topic entries now states)).Sublist
      ((entries.filter (eligible now)).map (·.data)) ∧
    ((∀ i, states i = ReadyState.OPEN) →
      sentMessages (sendBufferedMessages (some uid) topic entries now states) =
        (entries.filter (eligible now)).map (·.data)) ∧
    ((Effect.delKey (bufferKey uid topic) ∈
        sendBufferedMessages (some uid) topic entries now states) ↔ entries ≠ []) ∧
    (entries = [] → sendBufferedMessages (some uid) topic entries now states = []) := by
  rcases hne : entries with _ | ⟨a, rest⟩
  · refine ⟨by simp [sendBufferedMessages, sentMessages], by intro; simp [sendBufferedMessages, sentMessages], by simp [sendBufferedMessages], fun _ => rfl⟩
  · have hlen : (a :: rest).length ≠ 0 := by simp
    have hcond : ((((a :: rest).filter (eligible now)).map (·.data)).length > 0 ∨
        ((a :: rest).filter fun e => !(eligible now e)).length > 0) := by
      cases he : eligible now a
      · right; simp [List.filter_cons, he]
      · left; simp [List.filter_cons, he]
    have heq : sendBufferedMessages (some uid) topic (a :: rest) now states =
        sendLoop states 0 (((a :: rest).filter (eligible now)).map (·.data)) ++
          [Effect.delKey (bufferKey uid topic)] := by
      simp only [sendBufferedMessages]
      rw [if_neg hlen, if_pos hcond]
    refine ⟨?_, ?_, ?_, by simp⟩
    · rw [heq]
      simp only [sentMessages, List.filterMap_append]
      have hdel : (sentMessages [Effect.delKey (bufferKey uid topic)]) = [] := rfl
      simp only [sentMessages] at hdel
      rw [hdel, List.append_nil]
      exact sentMessages_sendLoop_sublist states 0 _
    · intro hopen
      rw [heq]
      simp only [sentMessages, List.filterMap_append]
      have hdel : (sentMessages [Effect.delKey (bufferKey uid topic)]) = [] := rfl
      simp only [sentMessages] at hdel
      rw [hdel, List.append_nil]
      exact sentMessages_sendLoop_all_open states hopen 0 _
    · rw [heq]
      simp

/-- Concrete instantiation of the C2 theorem on a two-entry buffer — one
fresh entry, one expired — replayed at time 600000 over an open connection:
only the fresh payload is delivered and the key is deleted. -/
theorem replay_window_order_and_delete_witness :
    (sentMessages (sendBufferedMessages (some "apple:u1") "conversation:42"
      sampleEntries 600000 alwaysOpen)).Sublist
      ((sampleEntries.filter (eligible 600000)).map (fun e => e.data)) ∧
    ((∀ i, alwaysOpen i = ReadyState.OPEN) →
      sentMessages (sendBufferedMessages (some "apple:u1") "conversation:42"
        sampleEntries 600000 alwaysOpen) =
        ((sampleEntries.filter (eligible 600000)).map (fun e => e.data))) ∧
    ((Effect.delKey (bufferKey "apple:u1" "conversation:42") ∈
        sendBufferedMessages (some "apple:u1") "conversation:42"
          sampleEntries 600000 alwaysOpen) ↔ sampleEntries ≠ []) ∧
    (sampleEntries = [] →
      sendBufferedMessages (some "apple:u1") "conversation:42"
        sampleEntries 600000 alwaysOpen = []) :=
  replay_window_order_and_delete "apple:u1" "conversation:42"
    sampleEntries 600000 alwaysOpen

/-- C9: round trip through the offline buffer.  A message that already
carries a (truthy) timestamp is stored by `bufferMessage` unchanged inside
the `{data, timestamp}` wrapper; replaying the key with
`sendBufferedMessages` before the eligibility window elapses, on an open
connection, sends exactly the original message — the wrapper's enqueue
timestamp is stripped and `type`, `timestamp` and `payload` are intact. -/
theorem buffer_roundtrip_preserves_message (uid topic : String)
    (data : WSMessage) (now now2 : Nat) (nowIso : String)
    (states : Nat → ReadyState)
    (hts : jsTruthy data.timestamp = true)
    (hfresh : (now2 : Int) - (now : Int) < (MESSAGE_EXPIRY_MS : Int))
    (hopen : states 0 = ReadyState.OPEN) :
    sentMessages (sendBufferedMessages (some uid) topic
      (applyEffects (bufferKey uid topic) ⟨[], none⟩
        (bufferMessage uid topic data now nowIso)).entries now2 states) = [data] := by
  rcases data with ⟨ty, ts, pl⟩
  rcases ts with _ | s
  · simp [jsTruthy] at hts
  · simp only [jsTruthy, Bool.not_eq_true'] at hts
    have hjs : jsOrElse (some s) nowIso = s := by
      simp [jsOrElse, hts]
    have hentries : (applyEffects (bufferKey uid topic) ⟨[], none⟩
        (bufferMessage uid topic ⟨ty, some s, pl⟩ now nowIso)).entries =
        [⟨⟨ty, some s, pl⟩, now⟩] := by
      simp only [applyEffects, bufferMessage, List.foldl, applyEffect, if_pos rfl, hjs]
      rw [redisLTrim_lastN _ BUFFER_MAX_LENGTH (by decide)]
      rfl
    rw [hentries]
    have helig : eligible now2 ⟨⟨ty, some s, pl⟩, now⟩ = true := by
      simp only [eligible, StoredEntry.mk.injEq]
      exact decide_eq_true hfresh
    simp [sendBufferedMessages, List.filter_cons, helig, sendLoop, hopen, sentMessages]

/-- Concrete instantiation of the C9 theorem: `sampleMsg` buffered at time
1000 and replayed at time 2000 over an open connection arrives unchanged. -/
theorem buffer_roundtrip_preserves_message_witness :
    sentMessages (sendBufferedMessages (some "apple:u1") "conversation:42"
      (applyEffects (bufferKey "apple:u1" "conversation:42") ⟨[], none⟩
        (bufferMessage "apple:u1" "conversation:42" sampleMsg 1000 "t0")).entries
      2000 alwaysOpen) = [sampleMsg] :=
  buffer_roundtrip_preserves_message "apple:u1" "conversation:42" sampleMsg
    1000 2000 "t0" alwaysOpen (by decide) (by decide) rfl

/-- C4: fan-out error handling.  If an identity has registered connections
but none of them passes the authenticated/open/subscribed checks with a
non-throwing send, `publish` degrades to exactly the durable-buffer enqueue;
and independently of how other connections fail, every connection on which
the send does succeed receives the payload — an error on one connection
never suppresses the delivery attempt on the others. -/
theorem publish_failures_buffer_and_isolate (uid topic : String)
    (data : WSMessage) (clients : List WebSocketClient) (now : Nat)
    (nowIso : String) :
    (clients ≠ [] → (∀ c ∈ clients, sendSucceeds uid topic c = false) →
      sendToSubscribedClients uid topic data (some clients) now nowIso =
        bufferMessage uid topic data now nowIso) ∧
    (∀ i c, clients[i]? = some c → sendSucceeds uid topic c = true →
      Effect.send i data ∈ sendToSubscribedClients uid topic data (some clients) now nowIso) := by
  constructor
  · intro hne hall
    have hlen : clients.length ≠ 0 := by
      simpa [List.length_eq_zero] using hne
    have hcount : (clients.countP fun c => sendSucceeds uid topic c) = 0 := by
      rw [List.countP_eq_zero]
      intro c hc
      simp [hall c hc]
    have hsend : ((clients.enum.map fun ic =>
        fanoutClientEffect uid topic data ic.1 ic.2).flatten) = [] := by
      rw [List.flatten_eq_nil_iff]
      intro l hl
      rw [List.mem_map] at hl
      obtain ⟨ic, hic, rfl⟩ := hl
      have hmem : ic.2 ∈ clients := by
        have := List.mem_enum_iff_getElem?.mp hic
        exact List.mem_iff_getElem?.mpr ⟨ic.1, this⟩
      simp [fanoutClientEffect, hall ic.2 hmem]
    simp [sendToSubscribedClients, if_neg hlen, hcount, hsend]
  · intro i c hget hsucc
    have hmem : (i, c) ∈ clients.enum := by
      rw [List.mk_mem_enum_iff_getElem?]
      exact hget
    have hlen : clients.length ≠ 0 := by
      intro h0
      rw [List.length_eq_zero] at h0
      subst h0
      simp at hget
    have hflat : Effect.send i data ∈ ((clients.enum.map fun ic =>
        fanoutClientEffect uid topic data ic.1 ic.2).flatten) := by
      rw [List.mem_flatten]
      refine ⟨[Effect.send i data], List.mem_map.mpr ⟨(i, c), hmem, ?_⟩, by simp⟩
      simp [fanoutClientEffect, hsucc]
    simp only [sendToSubscribedClients, if_neg hlen]
    by_cases hc : (clients.countP fun c => sendSucceeds uid topic c) = 0
    · rw [if_pos hc]
      exact List.mem_append_left _ hflat
    · rw [if_neg hc]
      exact hflat

/-- A client of the target identity whose `send` throws: authenticated,
open, subscribed, but erroring. -/
def erroringClient : WebSocketClient :=
  ⟨some "apple:u1", false, ["conversation:42"], ReadyState.OPEN, true, true⟩

/-- A healthy client of the target identity: authenticated, open,
subscribed, send succeeds. -/
def healthyClient : WebSocketClient :=
  ⟨some "apple:u1", false, ["conversation:42"], ReadyState.OPEN, false, true⟩

/-- Concrete instantiation of the C4 theorem: with a single erroring client
the publish degrades to exactly the buffer enqueue, and with an erroring
client listed before a healthy one the healthy client still receives the
payload. -/
theorem publish_failures_buffer_and_isolate_witness :
    sendToSubscribedClients "apple:u1" "conversation:42" sampleMsg
      (some [erroringClient]) 1000 "t0" =
      bufferMessage "apple:u1" "conversation:42" sampleMsg 1000 "t0" ∧
    Effect.send 1 sampleMsg ∈ sendToSubscribedClients "apple:u1" "conversation:42"
      sampleMsg (some [erroringClient, healthyClient]) 1000 "t0" :=
  ⟨(publish_failures_buffer_and_isolate "apple:u1" "conversation:42" sampleMsg
      [erroringClient] 1000 "t0").1 (by decide)
      (by intro c hc; simp only [List.mem_singleton] at hc; rw [hc]; decide),
   (publish_failures_buffer_and_isolate "apple:u1" "conversation:42" sampleMsg
      [erroringClient, healthyClient] 1000 "t0").2 1 healthyClient (by decide)
      (by decide)⟩

end WsSpec
